import Mathlib

/-!
Shallow embedding of `faust/tables/table.py` (the `Table` class: key
hooks, window wrapping, missing-key default policy) together with the
collaborators the spec describes (changelog emission, TTL bookkeeping,
window constructors, the dict mutation dispatcher).  Keys and values are
kept abstract (`K`, `V` with decidable equality); the backing store is an
association list with Python-dict update semantics; the ambient
"current event" is passed explicitly as an `Option Event` argument;
side effects (store mutation, changelog append, TTL update, sensor
notification) are recorded in order as an effect trace.
-/

namespace Faust

/-- A message identity as seen by the table: the partition and offset of
the stream message driving the current event. -/
structure Message where
  partition : Nat
  offset : Nat
  deriving DecidableEq

/-- The EventContext: identity of the event currently driving execution
(`current_event()` in the source). `none` means no event is active. -/
structure Event where
  message : Message
  timestamp : Int
  deriving DecidableEq

/-- Window policies. `faust/windows.py` is not under src/; the variants
and their parameters follow the spec: Tumbling(size, expires) and
Hopping(size, step, expires), durations as numbers, `expires = none`
meaning windows are retained indefinitely. -/
inductive Window where
  | tumbling (size : Int) (expires : Option Int)
  | hopping (size : Int) (step : Int) (expires : Option Int)
  deriving DecidableEq

/-- The expiry duration of a window policy (`none` = retained forever). -/
def Window.expires : Window → Option Int
  | .tumbling _ e => e
  | .hopping _ _ e => e

/-- Errors surfaced by the table operations.  `noActiveContext` models the
`TypeError` raised by `on_key_set` / `on_key_del` (carrying the message
text from the source); `keyNotFound` models the `KeyError` raised by
`__missing__`; `invalidWindowPolicy` models the window-configuration
error of the spec. -/
inductive Err where
  | noActiveContext (msg : String)
  | keyNotFound
  | invalidWindowPolicy
  deriving DecidableEq

/-- A changelog record: key, value-or-tombstone, the partition it is
appended to, and the serializer mode (`none` = the table default). -/
structure ChangelogRecord (K V : Type) where
  key : K
  value : Option V
  partition : Nat
  value_serializer : Option String
  deriving DecidableEq

/-- One observable side effect of a table operation, in the order the
operation performs them. -/
inductive Effect (K V : Type) where
  | storeSet (key : K) (value : V)
  | storeDel (key : K)
  | changelog (record : ChangelogRecord K V)
  | ttlUpdate (key : K) (partition : Nat)
  | sensorSet (key : K) (value : V)
  | sensorDel (key : K)
  | sensorGet (key : K)
  deriving DecidableEq

/-- State of a `Table`: the backing store (association list with
Python-dict semantics), the optional default factory (modelled by the
value it produces), the window policy, the two changelog retention
flags, the cached changelog topic (opaque identifier), and the TTL
bookkeeping entries `(partition, key)` owned by the expiry manager. -/
structure Table (K V : Type) where
  data : List (K × V)
  default : Option V
  window : Option Window
  changelog_compacting : Bool
  changelog_deleting : Bool
  changelog_topic : Option Nat
  ttl : List (Nat × K)
  deriving DecidableEq

/-- The window wrapper returned by `using_window`: the wrapped table and
the `key_index` storage-layout flag. -/
structure WindowWrapper (K V : Type) where
  table : Table K V
  key_index : Bool
  deriving DecidableEq

variable {K V : Type} [DecidableEq K] [DecidableEq V]

/-- Python-dict store lookup. -/
def getKey (data : List (K × V)) (key : K) : Option V :=
  (data.find? (fun kv => decide (kv.1 = key))).map (fun kv => kv.2)

/-- Python-dict store update: replace in place when present, append
otherwise. -/
def setKey (data : List (K × V)) (key : K) (value : V) : List (K × V) :=
  if (getKey data key).isSome then
    data.map (fun kv => if kv.1 = key then (key, value) else kv)
  else
    data ++ [(key, value)]

/-- Python-dict store deletion. -/
def delKey (data : List (K × V)) (key : K) : List (K × V) :=
  data.filter (fun kv => !(decide (kv.1 = key)))

/-- Whether the TTL bookkeeping holds an entry for `(partition, key)`. -/
def ttlContains (ttl : List (Nat × K)) (partition : Nat) (key : K) : Bool :=
  ttl.any (fun e => decide (e = (partition, key)))

/-- Insert an entry for `(partition, key)` into the TTL bookkeeping, or
refresh it (keep it) when already present. -/
def ttlInsert (ttl : List (Nat × K)) (partition : Nat) (key : K) :
    List (Nat × K) :=
  if ttlContains ttl partition key then ttl
  else ttl ++ [(partition, key)]

/-- Discard the entry for `(partition, key)` from the TTL bookkeeping. -/
def ttlDiscard (ttl : List (Nat × K)) (partition : Nat) (key : K) :
    List (Nat × K) :=
  ttl.filter (fun e => !(decide (e = (partition, key))))

namespace Table

/-- Modelled from the spec: `Collection._should_expire_keys` is not under
src/.  Per the spec, TTL bookkeeping applies only to a windowed table
with finite `expires`; with `expires` omitted the expiry manager is a
no-op for the table. -/
def should_expire_keys (t : Table K V) : Bool :=
  match t.window with
  | none => false
  | some w => w.expires.isSome

/-- Modelled from the spec: `Collection._send_changelog` (in
`faust/tables/base.py`, not under src/).  Per the spec, the emitted
ChangelogRecord carries the key, the value-or-tombstone, the serializer
mode passed by the caller, and the partition of the EventContext active
at the time of the call. -/
def send_changelog (event : Event) (key : K) (value : Option V)
    (value_serializer : Option String) : ChangelogRecord K V :=
  { key := key
    value := value
    partition := event.message.partition
    value_serializer := value_serializer }

/-- Modelled from the spec: `Collection._maybe_set_key_ttl` is not under
src/.  Per the spec, on a `set` through TableCore for a windowed table
with finite `expires`, an ExpiryEntry is inserted (or refreshed) for the
affected `(partition, key)`; otherwise it is a no-op. -/
def maybe_set_key_ttl (t : Table K V) (key : K) (partition : Nat) :
    Table K V :=
  if t.should_expire_keys then
    { t with ttl := ttlInsert t.ttl partition key }
  else t

/-- Modelled from the spec: `Collection._maybe_del_key_ttl` is not under
src/.  Modelled from the spec's ExpiryEntry lifecycle ("removed when the
tombstone for that window has been emitted") and from the source's
distinct name for the delete path (`_maybe_del_key_ttl`, as opposed to
`_maybe_set_key_ttl`): on a `delete`, which emits the tombstone for the
affected key, the bookkeeping entry for `(partition, key)` is discarded;
a no-op when the table has no finite expires. -/
def maybe_del_key_ttl (t : Table K V) (key : K) (partition : Nat) :
    Table K V :=
  if t.should_expire_keys then
    { t with ttl := ttlDiscard t.ttl partition key }
  else t

/-- `Table.on_key_get` from the source: notifies the sensor of the read;
it does not consult the ambient current event (passed here explicitly as
`ev`) and performs no mutation. -/
def on_key_get (t : Table K V) (ev : Option Event) (key : K) :
    Table K V × List (Effect K V) :=
  (t, [Effect.sensorGet key])

/-- `Table.on_key_set` from the source: requires an active event
(raising a `TypeError` otherwise), then sends the changelog record,
updates TTL bookkeeping for the event's partition, and notifies the
sensor, in that order. -/
def on_key_set (t : Table K V) (ev : Option Event) (key : K) (value : V) :
    Table K V × Except Err (List (Effect K V)) :=
  match ev with
  | none =>
    (t, Except.error (Err.noActiveContext
      "Setting table key from outside of stream iteration"))
  | some event =>
    let record := send_changelog event key (some value) none
    let partition := event.message.partition
    let t1 := maybe_set_key_ttl t key partition
    (t1, Except.ok
      [Effect.changelog record,
       Effect.ttlUpdate key partition,
       Effect.sensorSet key value])

/-- `Table.on_key_del` from the source: requires an active event
(raising a `TypeError` otherwise), then sends the tombstone changelog
record (`value=None`, `value_serializer='raw'`), updates TTL bookkeeping
for the event's partition, and notifies the sensor, in that order. -/
def on_key_del (t : Table K V) (ev : Option Event) (key : K) :
    Table K V × Except Err (List (Effect K V)) :=
  match ev with
  | none =>
    (t, Except.error (Err.noActiveContext
      "Deleting table key from outside of stream iteration"))
  | some event =>
    let record := send_changelog event key none (some "raw")
    let partition := event.message.partition
    let t1 := maybe_del_key_ttl t key partition
    (t1, Except.ok
      [Effect.changelog record,
       Effect.ttlUpdate key partition,
       Effect.sensorDel key])

/-- `Table.__missing__` from the source: when a key is absent, return
the default factory's value if one is configured, otherwise fail with
the key-not-found error. -/
def missing (t : Table K V) (key : K) : Except Err V :=
  match t.default with
  | some d => Except.ok d
  | none => Except.error Err.keyNotFound

/-- Modelled from the spec: the read entry point (`table[key]`, the dict
`__getitem__` protocol; the dispatcher class is not under src/).  Per
the spec, a read notifies the sensor regardless of hit or miss, returns
the stored value when present and otherwise falls back to the
`__missing__` policy, and never mutates state. -/
def table_get (t : Table K V) (ev : Option Event) (key : K) :
    Table K V × List (Effect K V) × Except Err V :=
  match on_key_get t ev key with
  | (t1, effects) =>
    (t1, effects,
      match getKey t1.data key with
      | some v => Except.ok v
      | none => missing t1 key)

/-- Modelled from the spec: the mutation entry point
(`table[key] = value`, the dict `__setitem__` protocol; the dispatcher
class is not under src/).  Per the spec, `set` requires an active
EventContext and fails with `NoActiveContext` leaving the store
unchanged; on success the backing-store mutation is applied first, then
the hook's changelog emission, TTL update and sensor notification
follow, in that order. -/
def table_set (t : Table K V) (ev : Option Event) (key : K) (value : V) :
    Table K V × Except Err (List (Effect K V)) :=
  match on_key_set t ev key value with
  | (t1, Except.error e) => (t1, Except.error e)
  | (t1, Except.ok effects) =>
    ({ t1 with data := setKey t1.data key value },
     Except.ok (Effect.storeSet key value :: effects))

/-- Modelled from the spec: the deletion entry point (`del table[key]`,
the dict `__delitem__` protocol; the dispatcher class is not under
src/).  Per the spec, `delete` requires an active EventContext and fails
with `NoActiveContext` leaving the store unchanged; on success the
backing-store deletion is applied first, then the tombstone changelog
emission, TTL update and sensor notification follow, in that order. -/
def table_del (t : Table K V) (ev : Option Event) (key : K) :
    Table K V × Except Err (List (Effect K V)) :=
  match on_key_del t ev key with
  | (t1, Except.error e) => (t1, Except.error e)
  | (t1, Except.ok effects) =>
    ({ t1 with data := delKey t1.data key },
     Except.ok (Effect.storeDel key :: effects))

/-- `Table.using_window` from the source: sets the window policy, forces
`_changelog_compacting = True` and `_changelog_deleting = True`, resets
the cached `_changelog_topic` to `None`, and returns a `WindowWrapper`
over the table with the given `key_index` flag. -/
def using_window (t : Table K V) (window : Window) (key_index : Bool) :
    WindowWrapper K V :=
  { table :=
      { t with
        window := some window
        changelog_compacting := true
        changelog_deleting := true
        changelog_topic := none }
    key_index := key_index }

end Table

/-- Modelled from the spec: `faust.windows.HoppingWindow`
(`faust/windows.py` is not under src/).  Per the spec,
`InvalidWindowPolicy` is raised at window-configuration time when
`step > size` or a negative duration (size, step or expires) is
supplied; otherwise the hopping policy is built. -/
def HoppingWindow (size step : Int) (expires : Option Int) :
    Except Err Window :=
  if size < 0 || step < 0 || expires.any (fun e => decide (e < 0))
      || step > size then
    Except.error Err.invalidWindowPolicy
  else
    Except.ok (Window.hopping size step expires)

/-- Modelled from the spec: `faust.windows.TumblingWindow`
(`faust/windows.py` is not under src/).  Per the spec, a tumbling window
is the degenerate hopping window whose step equals its size; a negative
duration (size or expires) raises `InvalidWindowPolicy` at
window-configuration time. -/
def TumblingWindow (size : Int) (expires : Option Int) :
    Except Err Window :=
  if size < 0 || expires.any (fun e => decide (e < 0)) then
    Except.error Err.invalidWindowPolicy
  else
    Except.ok (Window.tumbling size expires)

namespace Table

/-- `Table.hopping` from the source: builds a `HoppingWindow` and wraps
the table using it; a window-configuration error propagates to this
call. -/
def hopping (t : Table K V) (size step : Int) (expires : Option Int)
    (key_index : Bool) : Except Err (WindowWrapper K V) :=
  match HoppingWindow size step expires with
  | Except.error e => Except.error e
  | Except.ok w => Except.ok (using_window t w key_index)

/-- `Table.tumbling` from the source: builds a `TumblingWindow` and
wraps the table using it; a window-configuration error propagates to
this call. -/
def tumbling (t : Table K V) (size : Int) (expires : Option Int)
    (key_index : Bool) : Except Err (WindowWrapper K V) :=
  match TumblingWindow size expires with
  | Except.error e => Except.error e
  | Except.ok w => Except.ok (using_window t w key_index)

end Table

/-- The changelog records appearing in an effect trace, in order. -/
def changelogRecords : List (Effect K V) → List (ChangelogRecord K V)
  | [] => []
  | Effect.changelog r :: rest => r :: changelogRecords rest
  | _ :: rest => changelogRecords rest

/-- The effect trace of a successful operation (empty trace on error). -/
def tracedEffects : Except Err (List (Effect K V)) → List (Effect K V)
  | Except.ok effects => effects
  | Except.error _ => []

/-- Whether a result is the no-active-context error. -/
def isNoActiveContextErr {α : Type} : Except Err α → Bool
  | Except.error (Err.noActiveContext _) => true
  | _ => false

/-- Inserting an entry always leaves the bookkeeping holding it. -/
theorem ttlContains_ttlInsert (ttl : List (Nat × K)) (p : Nat) (k : K) :
    ttlContains (ttlInsert ttl p k) p k = true := by
  unfold ttlInsert
  split
  · assumption
  · simp [ttlContains]

/-- Discarding an entry leaves the bookkeeping without it. -/
theorem ttlContains_ttlDiscard (ttl : List (Nat × K)) (p : Nat) (k : K) :
    ttlContains (ttlDiscard ttl p k) p k = false := by
  induction ttl with
  | nil => rfl
  | cons a rest ih =>
    by_cases h : a = (p, k)
    · simpa [ttlDiscard, ttlContains, h] using ih
    · simpa [ttlDiscard, ttlContains, h] using ih

/-- TTL bookkeeping never changes the window policy field. -/
theorem maybe_set_key_ttl_window (t : Table K V) (k : K) (p : Nat) :
    (Table.maybe_set_key_ttl t k p).window = t.window := by
  unfold Table.maybe_set_key_ttl
  split <;> rfl

/-- TTL bookkeeping never changes the window policy field. -/
theorem maybe_del_key_ttl_window (t : Table K V) (k : K) (p : Nat) :
    (Table.maybe_del_key_ttl t k p).window = t.window := by
  unfold Table.maybe_del_key_ttl
  split <;> rfl

/-- A concrete table used for the concrete evaluations below. -/
def sampleTable : Table Nat Nat :=
  { data := [(1, 5)]
    default := none
    window := none
    changelog_compacting := false
    changelog_deleting := false
    changelog_topic := some 3
    ttl := [] }

/-- A concrete table with a default factory producing 9. -/
def sampleDefaultTable : Table Nat Nat :=
  { sampleTable with default := some 9 }

/-- A concrete windowed table with finite expires and one TTL entry for
partition 2, key 7. -/
def sampleTtlTable : Table Nat Nat :=
  { data := [(7, 1)]
    default := none
    window := some (Window.tumbling 10 (some 5))
    changelog_compacting := true
    changelog_deleting := true
    changelog_topic := none
    ttl := [(2, 7)] }

/-- A concrete active event on partition 2. -/
def sampleEvent : Event :=
  { message := { partition := 2, offset := 7 }, timestamp := 100 }

/-- C1: calling set or delete while no EventContext is active yields the
no-active-context error (with the source's message text) and leaves the
table state, in particular the backing store, unchanged; no mutation is
accepted without an active EventContext. -/
theorem mutation_without_context_fails_and_preserves_state
    (t : Table K V) (key : K) (value : V) :
    Table.table_set t none key value =
      (t, Except.error (Err.noActiveContext
        "Setting table key from outside of stream iteration")) ∧
    Table.table_del t none key =
      (t, Except.error (Err.noActiveContext
        "Deleting table key from outside of stream iteration")) :=
  ⟨rfl, rfl⟩

/-- C2: on every successful set or delete the side effects occur in
exactly this order: backing-store mutation, then changelog emission,
then TTL bookkeeping update, then sensor notification. -/
theorem mutation_side_effect_order
    (t : Table K V) (e : Event) (key : K) (value : V) :
    (Table.table_set t (some e) key value).2 =
      Except.ok
        [Effect.storeSet key value,
         Effect.changelog (Table.send_changelog e key (some value) none),
         Effect.ttlUpdate key e.message.partition,
         Effect.sensorSet key value] ∧
    (Table.table_del t (some e) key).2 =
      Except.ok
        [Effect.storeDel key,
         Effect.changelog (Table.send_changelog e key none (some "raw")),
         Effect.ttlUpdate key e.message.partition,
         Effect.sensorDel key] :=
  ⟨rfl, rfl⟩

/-- C3: every set and every delete emits exactly one changelog record,
and that record carries the partition of the EventContext active at the
time of the call, never a different partition. -/
theorem changelog_carries_active_event_partition
    (t : Table K V) (e : Event) (key : K) (value : V) :
    changelogRecords (tracedEffects (Table.table_set t (some e) key value).2) =
      [{ key := key, value := some value,
         partition := e.message.partition, value_serializer := none }] ∧
    changelogRecords (tracedEffects (Table.table_del t (some e) key).2) =
      [{ key := key, value := none,
         partition := e.message.partition, value_serializer := some "raw" }] :=
  ⟨rfl, rfl⟩

/-- C4: reading an absent key leaves the table unchanged (the key stays
absent — the default is never written back), and returns the freshly
computed default when a default factory is configured, or fails with the
key-not-found error when none is. -/
theorem missing_key_default_policy
    (t : Table K V) (ev : Option Event) (key : K)
    (habs : getKey t.data key = none) :
    (Table.table_get t ev key).1 = t ∧
    getKey (Table.table_get t ev key).1.data key = none ∧
    (Table.table_get t ev key).2.2 =
      (match t.default with
       | some d => Except.ok d
       | none => Except.error Err.keyNotFound) := by
  refine ⟨rfl, habs, ?_⟩
  simp only [Table.table_get, Table.on_key_get, habs]
  rfl

/-- C4 witness: at the concrete table with default factory 9 and the
absent key 2, the read returns 9 and the table is unchanged. -/
theorem missing_key_default_policy_witness :
    getKey sampleDefaultTable.data 2 = none ∧
    ((Table.table_get sampleDefaultTable none 2).1 = sampleDefaultTable ∧
     getKey (Table.table_get sampleDefaultTable none 2).1.data 2 = none ∧
     (Table.table_get sampleDefaultTable none 2).2.2 =
       (match sampleDefaultTable.default with
        | some d => Except.ok d
        | none => Except.error Err.keyNotFound)) :=
  ⟨by decide, missing_key_default_policy sampleDefaultTable none 2 (by decide)⟩

/-- C5 counterexample: the window policy set by a first wrapping call is
replaced by a second wrapping call — after wrapping with Tumbling(10)
and then with Tumbling(20), the table's window reads Tumbling(20), a
policy different from the one first set, so the policy is not immutable
for the table's lifetime. -/
theorem window_policy_replaced_by_second_wrap :
    (sampleTable.using_window (Window.tumbling 10 none) false).table.window
      = some (Window.tumbling 10 none) ∧
    (((sampleTable.using_window (Window.tumbling 10 none) false).table.using_window
        (Window.tumbling 20 none) false).table.window
      = some (Window.tumbling 20 none)) ∧
    decide (some (Window.tumbling 20 none) = some (Window.tumbling 10 none))
      = false := by
  decide

/-- C5 amended: each call to the wrapping operation sets the window
policy and forces the compacting and deleting flags to true, and no
other table operation (get, set, delete) modifies the window policy;
the wrapping operation itself, however, replaces the policy when called
again (immutability is not enforced by the code). -/
theorem using_window_sets_policy_and_flags
    (t : Table K V) (w : Window) (ki : Bool) (ev : Option Event)
    (key : K) (value : V) :
    (t.using_window w ki).table.window = some w ∧
    (t.using_window w ki).table.changelog_compacting = true ∧
    (t.using_window w ki).table.changelog_deleting = true ∧
    (Table.table_set t ev key value).1.window = t.window ∧
    (Table.table_del t ev key).1.window = t.window ∧
    (Table.table_get t ev key).1.window = t.window := by
  refine ⟨rfl, rfl, rfl, ?_, ?_, rfl⟩
  · cases ev with
    | none => rfl
    | some e =>
      simp only [Table.table_set, Table.on_key_set]
      exact maybe_set_key_ttl_window t key e.message.partition
  · cases ev with
    | none => rfl
    | some e =>
      simp only [Table.table_del, Table.on_key_del]
      exact maybe_del_key_ttl_window t key e.message.partition

/-- C6: with an active EventContext, delete emits a tombstone changelog
record — value absent and serializer-mode raw — while set emits a value
record — value present and the default serializer mode. -/
theorem delete_emits_raw_tombstone
    (t : Table K V) (e : Event) (key : K) (value : V) :
    (changelogRecords (tracedEffects (Table.table_del t (some e) key).2)).map
        (fun r => (r.value, r.value_serializer))
      = [((none : Option V), some "raw")] ∧
    (changelogRecords (tracedEffects (Table.table_set t (some e) key value).2)).map
        (fun r => (r.value, r.value_serializer))
      = [(some value, (none : Option String))] :=
  ⟨rfl, rfl⟩

/-- C7 counterexample: on the concrete windowed table with finite
expires holding the TTL entry (partition 2, key 7), deleting key 7 under
an active event on partition 2 leaves the TTL bookkeeping with no entry
for (2, 7) — the entry is discarded, not inserted or refreshed. -/
theorem delete_discards_ttl_entry_concrete :
    sampleTtlTable.should_expire_keys = true ∧
    ttlContains sampleTtlTable.ttl 2 7 = true ∧
    (Table.table_del sampleTtlTable (some sampleEvent) 7).1.ttl = [] ∧
    ttlContains (Table.table_del sampleTtlTable (some sampleEvent) 7).1.ttl 2 7
      = false := by
  decide

/-- C7 amended: on a windowed table with finite expires, every set
through the table inserts (or refreshes) a TTL entry for the affected
(partition, key), while every delete discards the entry for the affected
(partition, key) — delete updates the TTL bookkeeping by removal, not by
insertion. -/
theorem ttl_set_inserts_delete_discards
    (t : Table K V) (e : Event) (key : K) (value : V)
    (hexp : t.should_expire_keys = true) :
    ttlContains (Table.table_set t (some e) key value).1.ttl
      e.message.partition key = true ∧
    ttlContains (Table.table_del t (some e) key).1.ttl
      e.message.partition key = false := by
  constructor
  · simp only [Table.table_set, Table.on_key_set, Table.maybe_set_key_ttl, hexp,
      if_true]
    exact ttlContains_ttlInsert t.ttl e.message.partition key
  · simp only [Table.table_del, Table.on_key_del, Table.maybe_del_key_ttl, hexp,
      if_true]
    exact ttlContains_ttlDiscard t.ttl e.message.partition key

/-- C7 amended witness: on the concrete windowed table with finite
expires, setting key 7 under the partition-2 event leaves a TTL entry
for (2, 7) and deleting key 7 leaves none. -/
theorem ttl_set_inserts_delete_discards_witness :
    sampleTtlTable.should_expire_keys = true ∧
    (ttlContains (Table.table_set sampleTtlTable (some sampleEvent) 7 8).1.ttl
       2 7 = true ∧
     ttlContains (Table.table_del sampleTtlTable (some sampleEvent) 7).1.ttl
       2 7 = false) :=
  ⟨by decide,
   ttl_set_inserts_delete_discards sampleTtlTable sampleEvent 7 8 (by decide)⟩

/-- C8: configuring a hopping window with step greater than size or with
any negative duration yields the invalid-window-policy error from the
`hopping` call itself (window-configuration time, not deferred to first
use of the table); likewise a tumbling window with a negative duration. -/
theorem invalid_window_policy_raised_at_configuration
    (t : Table K V) (size step : Int) (expires : Option Int) (ki : Bool)
    (hbad : step > size ∨ size < 0 ∨ step < 0 ∨
      expires.any (fun e => decide (e < 0)) = true) :
    Table.hopping t size step expires ki
      = Except.error Err.invalidWindowPolicy ∧
    (size < 0 ∨ expires.any (fun e => decide (e < 0)) = true →
      Table.tumbling t size expires ki
        = Except.error Err.invalidWindowPolicy) := by
  constructor
  · have hcond : (size < 0 || step < 0 || expires.any (fun e => decide (e < 0))
        || decide (step > size)) = true := by
      rcases hbad with h | h | h | h
      · simp [h]
      · simp [h]
      · simp [h]
      · simp [h]
    simp only [Table.hopping, HoppingWindow]
    rw [if_pos hcond]
  · intro hbad2
    have hcond : (size < 0 || expires.any (fun e => decide (e < 0))) = true := by
      rcases hbad2 with h | h
      · simp [h]
      · simp [h]
    simp only [Table.tumbling, TumblingWindow]
    rw [if_pos hcond]

/-- C8 witness: configuring a hopping window with size 60 and step 70
(step greater than size) and a tumbling window with size -1 both yield
the invalid-window-policy error at the configuration call. -/
theorem invalid_window_policy_raised_at_configuration_witness :
    Table.hopping sampleTable 60 70 none false
      = Except.error Err.invalidWindowPolicy ∧
    Table.tumbling sampleTable (-1) none false
      = Except.error Err.invalidWindowPolicy :=
  ⟨(invalid_window_policy_raised_at_configuration sampleTable 60 70 none false
      (Or.inl (by decide))).1,
   (invalid_window_policy_raised_at_configuration sampleTable (-1) 70 none false
      (Or.inr (Or.inl (by decide)))).2 (Or.inl (by decide))⟩

/-- C9: reading a key is never gated on an EventContext: the read path
is independent of the ambient current event, it never yields the
no-active-context error, and it unconditionally notifies the sensor of
the read. -/
theorem get_never_requires_event_context
    (t : Table K V) (ev : Option Event) (key : K) :
    Table.table_get t ev key = Table.table_get t none key ∧
    (Table.table_get t ev key).2.1 = [Effect.sensorGet key] ∧
    isNoActiveContextErr (Table.table_get t ev key).2.2 = false := by
  refine ⟨rfl, rfl, ?_⟩
  simp only [Table.table_get, Table.on_key_get]
  cases h : getKey t.data key with
  | some v => rfl
  | none =>
    simp only [Table.missing]
    cases t.default with
    | some d => rfl
    | none => rfl

/-- C10: the window-wrapping operation sets exactly the window policy,
the compacting flag, the deleting flag and the cached changelog topic
(reset to none, to be recomputed on next access), and leaves the stored
key/value data, the default policy and the TTL bookkeeping unchanged;
the returned wrapper carries the requested key-index flag. -/
theorem using_window_frame (t : Table K V) (w : Window) (ki : Bool) :
    (t.using_window w ki).table =
      { t with
        window := some w
        changelog_compacting := true
        changelog_deleting := true
        changelog_topic := none } ∧
    (t.using_window w ki).table.data = t.data ∧
    (t.using_window w ki).table.default = t.default ∧
    (t.using_window w ki).table.ttl = t.ttl ∧
    (t.using_window w ki).key_index = ki :=
  ⟨rfl, rfl, rfl, rfl, rfl⟩

end Faust
